import Mathlib

/-!
Verification of the Hat Yai flood-warning core (risk fusion / QA engine).

Shallow embedding of the Python sources:
 * `constants.py` — station metadata, hydraulic constants, `sigmoid_risk`,
   `calculate_flow_velocity`, `calculate_eta_hours`, `calculate_actual_distance`;
 * `models/flood_predictor.py` — `clean_value`, the water-level store
   (`INSERT OR IGNORE` on `UNIQUE(timestamp, station_id)`),
   `calculate_rate_of_change`, `estimate_time_to_impact_hydraulic`,
   `analyze_flood_risk`;
 * `models/qa.py` — `compute_qa_flags`.

Conventions: Python floats are modelled as ℝ where the code applies
transcendental functions (`math.exp`, `math.sqrt`), and as ℚ elsewhere;
`None` becomes `Option`; Python's `round(x, n)` (round-half-to-even) is
modelled by Mathlib's `round` (round-half-up) — the two differ only at exact
ties, and no statement below depends on tie behaviour.
-/

open Real

/-! ## Station metadata (`constants.py`, `STATION_METADATA`)

Only the fields the verified code paths read are embedded.  `ground_level`
is read by the QA datum check via `meta.get("ground_level")`, but no station
in `STATION_METADATA` defines that key, so it is `none` for every station. -/

structure StationMeta where
  id : ℤ
  bank_full_capacity : ℚ
  critical_threshold : ℚ
  min_valid_level : ℚ
  ground_level : Option ℚ
  deriving DecidableEq, Repr

def hatYaiMeta : StationMeta :=
  { id := 2585, bank_full_capacity := 21/2, critical_threshold := 11,
    min_valid_level := -2, ground_level := none }

def sadaoMeta : StationMeta :=
  { id := 2590, bank_full_capacity := 9, critical_threshold := 19/2,
    min_valid_level := -3/2, ground_level := none }

def kallayanamitMeta : StationMeta :=
  { id := 2589, bank_full_capacity := 10, critical_threshold := 21/2,
    min_valid_level := -9/5, ground_level := none }

/-- `STATION_METADATA.get(station_id)`: lookup by station name
(`None` / an unknown name finds no entry). -/
def stationMetadataGet : Option String → Option StationMeta
  | some "HatYai" => some hatYaiMeta
  | some "Sadao" => some sadaoMeta
  | some "Kallayanamit" => some kallayanamitMeta
  | _ => none

/-! ## Value sanitizer (`flood_predictor.py`, `clean_value`) -/

/-- A raw sensor value as `clean_value` receives it: `None`, a value that
`float()` converts, or text that `float()` rejects (raises). -/
inductive RawValue where
  | null : RawValue
  | num : ℚ → RawValue
  | malformed : RawValue
  deriving DecidableEq, Repr

/-- `STATION_METADATA.get(station_id, {}).get('min_valid_level', -5.0)` —
the per-station floor, defaulting to −5.0 for unconfigured stations. -/
def min_threshold (station_id : Option String) : ℚ :=
  match stationMetadataGet station_id with
  | some meta => meta.min_valid_level
  | none => -5

/-- `clean_value(val, station_id)`: `None` for `None`/unconvertible input,
the numeric value if it is strictly above the station's floor, else `None`. -/
def clean_value (val : RawValue) (station_id : Option String) : Option ℚ :=
  match val with
  | .null => none
  | .malformed => none
  | .num v => if v > min_threshold station_id then some v else none

/-! ## Time-series store (`flood_predictor.py`)

`_init_db` declares `UNIQUE(timestamp, station_id)` on `water_levels` and
`fetch_and_store_data` inserts with `INSERT OR IGNORE`, so an insert whose
(timestamp, station) key is already present leaves the table unchanged. -/

structure WaterLevelRow where
  timestamp : String
  station_id : String
  level : ℚ
  deriving DecidableEq, Repr

/-- Does the table already hold a row with this (timestamp, station) key? -/
def hasKey (db : List WaterLevelRow) (ts st : String) : Bool :=
  db.any fun r => r.timestamp == ts && r.station_id == st

/-- `INSERT OR IGNORE INTO water_levels (timestamp, station_id, level)`
under the `UNIQUE(timestamp, station_id)` constraint: append the row only
when its key is absent. -/
def record (ts st : String) (lv : ℚ) (db : List WaterLevelRow) :
    List WaterLevelRow :=
  if hasKey db ts st then db else db ++ [⟨ts, st, lv⟩]

/-- Number of stored rows carrying a given (timestamp, station) key. -/
def countKey (db : List WaterLevelRow) (ts st : String) : ℕ :=
  (db.filter fun r => r.timestamp == ts && r.station_id == st).length

/-! ## Rate-of-change estimator (`flood_predictor.py`, `calculate_rate_of_change`)

Per station the code sorts the station's rows by timestamp, keeps those inside
the trailing 1.5-hour window (`recent_df`), and computes
`(last.level - first.level) / hours` when at least two rows remain and the
elapsed time exceeds 0.1 h, and `0.0` otherwise.  The embedding takes that
windowed, ascending list directly: each element is (timestamp in hours, level). -/

def calculate_rate_of_change (readings : List (ℚ × ℚ)) : ℚ :=
  match readings with
  | [] => 0
  | [_] => 0
  | r :: s :: t =>
    let last := (s :: t).getLast (List.cons_ne_nil s t)
    let level_diff := last.2 - r.2
    let time_diff_hours := last.1 - r.1
    if time_diff_hours > 1/10 then level_diff / time_diff_hours else 0

/-! ## QA/QC validator (`qa.py`, `compute_qa_flags`)

Thresholds from `qa.py`: `STALE_THRESHOLD_HOURS = 6`, `MAX_JUMP_M_PER_HOUR =
2.0`.  Inputs are modelled per fixed station key (`STATION_METADATA` has
exactly HatYai, Sadao, Kallayanamit, iterated in that order):
`sensor_data["all_data"]` as three optional levels, `rate_of_change` (a dict
read with `.get(name, 0)`) as three rationals, `bank_info` entries
(`.get(name, {})`) as optional `situation_level` / `ground_level`, and
`last_update` as the age of the data in hours (`none` when `last_update` is
`None`, in which case the staleness check is skipped). -/

structure BankInfo where
  situation_level : Option ℚ
  ground_level : Option ℚ
  deriving DecidableEq, Repr

/-- The empty `bank_info.get(station_name, {})` entry. -/
def BankInfo.empty : BankInfo := ⟨none, none⟩

structure AllData where
  hatYai : Option ℚ
  sadao : Option ℚ
  kallayanamit : Option ℚ
  deriving DecidableEq, Repr

structure BankInfoMap where
  hatYai : BankInfo
  sadao : BankInfo
  kallayanamit : BankInfo
  deriving DecidableEq, Repr

structure RocMap where
  hatYai : ℚ
  sadao : ℚ
  kallayanamit : ℚ
  deriving DecidableEq, Repr

structure StationQA where
  flags : List String
  confidence : ℤ
  deriving DecidableEq, Repr

/-- The per-station loop body of `compute_qa_flags`: a station with no level
is flagged `offline` with confidence 0 and the remaining checks are skipped
(`continue`); otherwise checks 2–6 accumulate flags and deductions in source
order, an empty flag list becomes `["ok"]`, and confidence is clamped to
[0, 100]. -/
def qaStation (meta : StationMeta) (level : Option ℚ) (roc : ℚ)
    (ageHours : Option ℚ) (bi : BankInfo) : StationQA :=
  match level with
  | none => ⟨["offline"], 0⟩
  | some lv =>
    let staleF : Bool := match ageHours with
      | some a => decide (a > 6)
      | none => false
    let jumpF : Bool := decide (|roc| > 2)
    let rangeF : Bool :=
      decide (lv < meta.min_valid_level ∨ lv > meta.bank_full_capacity + 5)
    let logicF : Bool := match bi.situation_level with
      | some s => decide (s ≤ 1 ∧ roc > 1/2)
      | none => false
    let datumF : Bool := match bi.ground_level, meta.ground_level with
      | some g, some c => decide (|g - c| > 1/2)
      | _, _ => false
    let flags : List String :=
      (if staleF then ["stale"] else []) ++
      (if jumpF then ["jump"] else []) ++
      (if rangeF then ["out_of_range"] else []) ++
      (if logicF then ["logic_warn"] else []) ++
      (if datumF then ["datum_mismatch"] else [])
    let confidence : ℤ := 100 -
      (if staleF then 30 else 0) - (if jumpF then 25 else 0) -
      (if rangeF then 40 else 0) - (if logicF then 10 else 0) -
      (if datumF then 20 else 0)
    ⟨if flags = [] then ["ok"] else flags, max 0 (min 100 confidence)⟩

structure QAStations where
  hatYai : StationQA
  sadao : StationQA
  kallayanamit : StationQA
  deriving DecidableEq, Repr

structure QAResult where
  stations : QAStations
  overall_confidence : ℤ
  overall_status : String
  deriving DecidableEq, Repr

/-- `compute_qa_flags(sensor_data, rate_of_change, last_update)`.  The three
configured stations always contribute a score, so `station_scores` is never
empty; `overall_confidence = round(sum/len)` and the status buckets are
`>= 80 → "ok"`, `>= 50 → "degraded"`, else `"critical"`. -/
def compute_qa_flags (allData : AllData) (bi : BankInfoMap) (roc : RocMap)
    (ageHours : Option ℚ) : QAResult :=
  let hy := qaStation hatYaiMeta allData.hatYai roc.hatYai ageHours bi.hatYai
  let sd := qaStation sadaoMeta allData.sadao roc.sadao ageHours bi.sadao
  let kl := qaStation kallayanamitMeta allData.kallayanamit roc.kallayanamit
    ageHours bi.kallayanamit
  let overall : ℤ :=
    round (((hy.confidence + sd.confidence + kl.confidence : ℤ) : ℚ) / 3)
  { stations := ⟨hy, sd, kl⟩
    overall_confidence := overall
    overall_status :=
      if overall ≥ 80 then "ok"
      else if overall ≥ 50 then "degraded"
      else "critical" }

/-! ## Real-valued hydraulic and risk formulas (`constants.py`)

The Python code applies `math.exp` / `math.sqrt` here, so this part of the
embedding lives in ℝ.  Decimal constants are written as exact fractions
(0.8 = 4/5, 9.5 = 19/2, …).  `round1` / `round2` model Python's
`round(x, 1)` / `round(x, 2)`. -/

noncomputable def round1 (x : ℝ) : ℝ := ((round (10 * x) : ℤ) : ℝ) / 10

noncomputable def round2 (x : ℝ) : ℝ := ((round (100 * x) : ℤ) : ℝ) / 100

/- `RIVER_HYDRAULICS` (the fields the verified paths read). -/
noncomputable def sinuosity_factor : ℝ := 7/5
noncomputable def straight_distance_km : ℝ := 60
noncomputable def base_velocity_dry : ℝ := 3/10
noncomputable def base_velocity_normal : ℝ := 4/5
noncomputable def base_velocity_wet : ℝ := 6/5
noncomputable def max_velocity : ℝ := 5/2
noncomputable def runoff_delay_hours : ℝ := 8

/- `RISK_CALCULATION` and `RAINFALL_THRESHOLDS['catastrophic_24h']`. -/
noncomputable def sigmoid_k : ℝ := 4/5
noncomputable def sigmoid_x0 : ℝ := 19/2
noncomputable def rainfall_weight : ℝ := 2/5
noncomputable def water_level_weight : ℝ := 3/5
noncomputable def warning_max : ℝ := 70
noncomputable def critical_min : ℝ := 71
noncomputable def catastrophic_24h : ℝ := 250

/-- `calculate_actual_distance(straight_km, sinuosity)`. -/
noncomputable def calculate_actual_distance (straight_km sinuosity : ℝ) : ℝ :=
  straight_km * sinuosity

/-- `calculate_flow_velocity(water_level, bank_full, base_velocity)`:
half the base flow at non-positive level, else a square-root depth-ratio law
saturating at 1.5× bank-full and capped at `max_velocity`. -/
noncomputable def calculate_flow_velocity
    (water_level bank_full base_velocity : ℝ) : ℝ :=
  if water_level ≤ 0 then base_velocity * (1/2)
  else
    let depth_ratio := min (water_level / bank_full) (3/2)
    let velocity_factor := Real.sqrt depth_ratio
    min (base_velocity * velocity_factor) max_velocity

/-- `sigmoid_risk(water_level, k, x0)` with both parameters supplied (the
call in `analyze_flood_risk` passes `sigmoid_k` and `sigmoid_x0` explicitly,
so the `k or default` / `x0 or default` lines resolve to the arguments). -/
noncomputable def sigmoid_risk (water_level k x0 : ℝ) : ℝ :=
  let normalized_level := (water_level - 5) / 10
  let risk := 100 / (1 + Real.exp (-k * (normalized_level - x0 / 10)))
  max 0 (min 100 risk)

/-- `sigmoid_risk` at the configured parameters k = 0.8, x0 = 9.5. -/
noncomputable def sigmoid_risk_cfg (water_level : ℝ) : ℝ :=
  sigmoid_risk water_level sigmoid_k sigmoid_x0

/-- `calculate_eta_hours(distance_km, velocity_ms, lag_hours)` with the lag
supplied (the call in `estimate_time_to_impact_hydraulic` passes
`runoff_delay_hours` explicitly, so `lag_hours or default` resolves to it). -/
noncomputable def calculate_eta_hours (distance_km velocity_ms lag_hours : ℝ) : ℝ :=
  let distance_m := distance_km * 1000
  let travel_time_hours := (distance_m / velocity_ms) / 3600
  travel_time_hours + lag_hours

/-! ## Hydraulic ETA estimator
(`flood_predictor.py`, `estimate_time_to_impact_hydraulic`)

Inputs: the Sadao entry of `sensor_data["all_data"]` and the Sadao
rate-of-change `self.calculate_rate_of_change().get("Sadao", 0.0)`, passed
here as parameters.  The presentation string `eta_label` and the echo fields
`actual_distance_km`, `sadao_level`, `bank_full_ratio` of the returned dict
are omitted; `eta_hours`, `velocity_ms`, `confidence`, `sadao_rising` are
kept. -/

noncomputable def sadao_bank_full : ℝ := 9

/-- Base-velocity tier selection by level vs fractions of Sadao bank-full. -/
noncomputable def sadaoBaseVelocity (sadao_level : ℝ) : ℝ :=
  if sadao_level ≤ sadao_bank_full * (1/2) then base_velocity_dry
  else if sadao_level ≤ sadao_bank_full then base_velocity_normal
  else base_velocity_wet

/-- The momentum multiplier applied to the hydraulic velocity from the
Sadao rate-of-change. -/
noncomputable def momentumFactor (sadao_roc : ℝ) : ℝ :=
  if sadao_roc > 1/2 then 13/10
  else if sadao_roc > 1/5 then 11/10
  else if sadao_roc < -(1/10) then 4/5
  else 1

/-- The velocity the estimator feeds to `calculate_eta_hours`: hydraulic
velocity times momentum factor, re-clamped by
`velocity = max(0.1, min(velocity, max_velocity))`. -/
noncomputable def etaInputVelocity (sadao_level sadao_roc : ℝ) : ℝ :=
  max (1/10)
    (min (calculate_flow_velocity sadao_level sadao_bank_full
            (sadaoBaseVelocity sadao_level) * momentumFactor sadao_roc)
      max_velocity)

structure EtaResult where
  eta_hours : ℝ
  velocity_ms : ℝ
  confidence : String
  sadao_rising : Bool

/-- The "no data" dictionary returned when the Sadao level is absent. -/
noncomputable def etaNoData : EtaResult :=
  { eta_hours := 0, velocity_ms := 0,
    confidence := "Low (No upstream data)", sadao_rising := false }

noncomputable def estimate_time_to_impact_hydraulic
    (sadao_level : Option ℝ) (sadao_roc : ℝ) : EtaResult :=
  match sadao_level with
  | none => etaNoData
  | some lv =>
    let velocity := etaInputVelocity lv sadao_roc
    let actual_distance_km :=
      calculate_actual_distance straight_distance_km sinuosity_factor
    let eta_hours :=
      calculate_eta_hours actual_distance_km velocity runoff_delay_hours
    let conf : String :=
      if lv > sadao_bank_full ∧ sadao_roc > 0 then "High"
      else if lv > sadao_bank_full * (4/5) then "Medium"
      else "Low"
    { eta_hours := round1 eta_hours, velocity_ms := round2 velocity,
      confidence := conf, sadao_rising := decide (sadao_roc > 0) }

/-! ## Risk fusion engine (`flood_predictor.py`, `analyze_flood_risk`)

Inputs: `sensor_data.get("level")`, `sensor_data.get("station_code")`
(rendered into the hybrid source label) and
`rain_data.get("rain_sum_3d", 0.0)`.  The embedding covers steps 1–4 of the
method — rain risk, sigmoid water risk, fusion/confidence/source, alert
tier — which is what the claims address; the outlook/ETA/history/summary
payloads and the fire-and-forget risk log are attached alongside and do not
feed back into these fields. -/

/-- Step 4's alert tier from the final risk:
`> critical_min → CRITICAL`, `> warning_max → WARNING`, else `NORMAL`. -/
noncomputable def alertLevelOf (final_risk : ℝ) : String :=
  if final_risk > critical_min then "CRITICAL"
  else if final_risk > warning_max then "WARNING"
  else "NORMAL"

structure RiskReportCore where
  primary_risk : ℝ
  alert_level : String
  data_source : String
  confidence_score : ℤ
  is_sensor_active : Bool

noncomputable def analyze_flood_risk
    (level : Option ℝ) (station_code : String) (rain_sum_3d : ℝ) :
    RiskReportCore :=
  let rain_risk_pc := min (rain_sum_3d / catastrophic_24h * 100) 100
  let water_risk_pc : ℝ := match level with
    | some lv => sigmoid_risk lv sigmoid_k sigmoid_x0
    | none => 0
  let final_risk : ℝ := match level with
    | some _ => rain_risk_pc * rainfall_weight + water_risk_pc * water_level_weight
    | none => rain_risk_pc
  let confidence : ℤ := match level with
    | some _ => 90
    | none => 65
  let source : String := match level with
    | some _ => "Hybrid (" ++ station_code ++ ")"
    | none => "Virtual (Rain Only)"
  { primary_risk := round1 final_risk
    alert_level := alertLevelOf final_risk
    data_source := source
    confidence_score := confidence
    is_sensor_active := level.isSome }

/-! ## Helper lemmas -/

/-- Every configured station's `min_valid_level` (−2.0, −1.5, −1.8) lies
strictly above the −5.0 fallback floor. -/
lemma stationMetadataGet_min_valid {sid : Option String} {m : StationMeta}
    (h : stationMetadataGet sid = some m) : -5 < m.min_valid_level := by
  unfold stationMetadataGet at h
  split at h
  · injection h with h; subst h; norm_num [hatYaiMeta]
  · injection h with h; subst h; norm_num [sadaoMeta]
  · injection h with h; subst h; norm_num [kallayanamitMeta]
  · exact absurd h (by simp)

/-- Inserting into a table that already holds the key is a no-op. -/
lemma record_of_hasKey {ts st : String} {lv : ℚ} {db : List WaterLevelRow}
    (h : hasKey db ts st = true) : record ts st lv db = db := by
  unfold record
  rw [if_pos h]

/-- After a `record`, the (timestamp, station) key is present. -/
lemma hasKey_record_self (ts st : String) (lv : ℚ) (db : List WaterLevelRow) :
    hasKey (record ts st lv db) ts st = true := by
  unfold record
  by_cases h : hasKey db ts st = true
  · rw [if_pos h]; exact h
  · rw [if_neg h]
    unfold hasKey
    rw [List.any_append]
    simp

/-! ## Claim theorems -/

/-- C10: for a station_id with no metadata entry (including `None`),
`clean_value` applies the −5.0 fallback floor: a numeric value is kept iff it
exceeds −5.0, and `None`/unconvertible input yields `None`; every configured
floor is stricter, so any value a configured station accepts, an unconfigured
station also accepts. -/
theorem C10_clean_value_fallback :
    (∀ sid : Option String, stationMetadataGet sid = none → ∀ v : ℚ,
      (clean_value (.num v) sid = some v ↔ v > -5) ∧
      clean_value .null sid = none ∧ clean_value .malformed sid = none) ∧
    (∀ (sid : Option String) (m : StationMeta),
      stationMetadataGet sid = some m → -5 < m.min_valid_level) ∧
    (∀ (sid sid' : Option String) (v : ℚ), stationMetadataGet sid' = none →
      clean_value (.num v) sid = some v → clean_value (.num v) sid' = some v) := by
  refine ⟨?_, fun _ _ h => stationMetadataGet_min_valid h, ?_⟩
  · intro sid h v
    refine ⟨?_, rfl, rfl⟩
    simp only [clean_value, min_threshold, h]
    by_cases hv : v > (-5 : ℚ)
    · simp [hv]
    · simp [hv]
  · intro sid sid' v h' hacc
    have hv5 : v > -5 := by
      cases hx : stationMetadataGet sid with
      | none =>
        simp only [clean_value, min_threshold, hx] at hacc
        by_cases hv : v > (-5 : ℚ)
        · exact hv
        · simp [hv] at hacc
      | some m =>
        have hfloor := stationMetadataGet_min_valid hx
        simp only [clean_value, min_threshold, hx] at hacc
        by_cases hv : v > m.min_valid_level
        · exact lt_trans hfloor hv
        · simp [hv] at hacc
    simp only [clean_value, min_threshold, h']
    simp [hv5]

/-- C10 witness: `"Unknown"` is unconfigured, so −4.9 passes its sanitizer;
HatYai is configured with a floor above −5. -/
theorem C10_clean_value_fallback_witness :
    (clean_value (.num (-49/10)) (some "Unknown") = some (-49/10) ↔
      (-49/10 : ℚ) > -5) ∧
    (-5 : ℚ) < hatYaiMeta.min_valid_level ∧
    clean_value (.num (-49/10)) (some "Unknown") = some (-49/10) :=
  ⟨(C10_clean_value_fallback.1 (some "Unknown") rfl (-49/10)).1,
   C10_clean_value_fallback.2.1 (some "HatYai") hatYaiMeta rfl,
   (C10_clean_value_fallback.1 (some "Unknown") rfl (-49/10)).1.mpr
     (by norm_num)⟩

/-- C7: the store's insert is idempotent — re-inserting the same
(timestamp, station) key leaves the table unchanged, and starting from a
table without the key, two inserts leave exactly one row for that key. -/
theorem C7_record_idempotent :
    ∀ (ts st : String) (lv : ℚ) (db : List WaterLevelRow),
      record ts st lv (record ts st lv db) = record ts st lv db ∧
      (countKey db ts st = 0 →
        countKey (record ts st lv (record ts st lv db)) ts st = 1) := by
  intro ts st lv db
  have hidem : record ts st lv (record ts st lv db) = record ts st lv db :=
    record_of_hasKey (hasKey_record_self ts st lv db)
  refine ⟨hidem, fun h0 => ?_⟩
  rw [hidem]
  have hfilter : (db.filter fun r =>
      r.timestamp == ts && r.station_id == st) = [] :=
    List.length_eq_zero.mp h0
  have hno : ¬ hasKey db ts st = true := by
    intro hk
    rw [hasKey, List.any_eq_true] at hk
    obtain ⟨r, hr, hpr⟩ := hk
    have : r ∈ db.filter fun r => r.timestamp == ts && r.station_id == st :=
      List.mem_filter.mpr ⟨hr, hpr⟩
    simp [hfilter] at this
  unfold record
  rw [if_neg hno]
  unfold countKey
  rw [List.filter_append, hfilter]
  simp

/-- C7 witness: inserting ("2024-01-01 00:00:00", "HatYai") twice into the
empty table leaves exactly one row with that key. -/
theorem C7_record_idempotent_witness :
    countKey ([] : List WaterLevelRow) "2024-01-01 00:00:00" "HatYai" = 0 ∧
    countKey
      (record "2024-01-01 00:00:00" "HatYai" 7
        (record "2024-01-01 00:00:00" "HatYai" 7 []))
      "2024-01-01 00:00:00" "HatYai" = 1 :=
  ⟨rfl,
   (C7_record_idempotent "2024-01-01 00:00:00" "HatYai" 7 []).2 rfl⟩

/-- C4: one reading in the window yields slope 0; two readings 2 hours apart
whose levels differ by 1.0 m yield 0.5 m/h. -/
theorem C4_rate_of_change_base_cases :
    (∀ r : ℚ × ℚ, calculate_rate_of_change [r] = 0) ∧
    (∀ t1 l1 t2 l2 : ℚ, t2 - t1 = 2 → l2 - l1 = 1 →
      calculate_rate_of_change [(t1, l1), (t2, l2)] = 1/2) := by
  constructor
  · intro r; rfl
  · intro t1 l1 t2 l2 ht hl
    simp only [calculate_rate_of_change, List.getLast, ht, hl]
    norm_num

/-- C4 witness: readings (t=0h, 0 m) and (t=2h, 1 m). -/
theorem C4_rate_of_change_base_cases_witness :
    calculate_rate_of_change [((0 : ℚ), (0 : ℚ))] = 0 ∧
    calculate_rate_of_change [((0 : ℚ), (0 : ℚ)), ((2 : ℚ), (1 : ℚ))] = 1/2 :=
  ⟨C4_rate_of_change_base_cases.1 (0, 0),
   C4_rate_of_change_base_cases.2 0 0 2 1 (by norm_num) (by norm_num)⟩

/-- C5: a station whose level is absent gets confidence 0 and flag list
exactly `["offline"]`, independently of the rate-of-change, data age and
bank-info inputs (the remaining checks are skipped). -/
theorem C5_offline_station :
    ∀ (d : AllData) (bi : BankInfoMap) (roc : RocMap) (age : Option ℚ),
      (d.hatYai = none →
        (compute_qa_flags d bi roc age).stations.hatYai = ⟨["offline"], 0⟩) ∧
      (d.sadao = none →
        (compute_qa_flags d bi roc age).stations.sadao = ⟨["offline"], 0⟩) ∧
      (d.kallayanamit = none →
        (compute_qa_flags d bi roc age).stations.kallayanamit =
          ⟨["offline"], 0⟩) := by
  intro d bi roc age
  refine ⟨fun h => ?_, fun h => ?_, fun h => ?_⟩ <;>
    simp [compute_qa_flags, qaStation, h]

/-- C5 witness: a snapshot with all three stations offline, arbitrary
rate-of-change and bank info. -/
theorem C5_offline_station_witness :
    (compute_qa_flags ⟨none, none, none⟩
      ⟨⟨some 1, some 3⟩, ⟨none, none⟩, ⟨none, none⟩⟩
      ⟨9, 9, 9⟩ (some 100)).stations.sadao = ⟨["offline"], 0⟩ :=
  (C5_offline_station ⟨none, none, none⟩
    ⟨⟨some 1, some 3⟩, ⟨none, none⟩, ⟨none, none⟩⟩
    ⟨9, 9, 9⟩ (some 100)).2.1 rfl

/-- Concrete QA run with two healthy stations (confidence 100 each) and one
offline station (confidence 0): the per-station mean is 200/3, which is not
an integer. -/
def qaMeanCx : QAResult :=
  compute_qa_flags ⟨some 5, some 5, none⟩
    ⟨⟨none, none⟩, ⟨none, none⟩, ⟨none, none⟩⟩ ⟨0, 0, 0⟩ none

/-- Evaluation of the concrete QA run. -/
lemma qaMeanCx_eq :
    qaMeanCx = ⟨⟨⟨["ok"], 100⟩, ⟨["ok"], 100⟩, ⟨["offline"], 0⟩⟩,
      67, "degraded"⟩ := by
  have h67 : round ((200 : ℚ) / 3) = 67 := by
    rw [round_eq, show ((200 : ℚ) / 3 + 1 / 2) = 403 / 6 by norm_num,
      Int.floor_eq_iff]
    norm_num
  norm_num [qaMeanCx, compute_qa_flags, qaStation, hatYaiMeta, sadaoMeta,
    kallayanamitMeta, h67]

/-- C6 counterexample: with per-station confidences 100, 100 and 0 the code
reports overall confidence `round(200/3) = 67`, which differs from the exact
mean 200/3 — the aggregate is the rounded mean, not the mean. -/
theorem C6_counterexample :
    qaMeanCx.stations.hatYai.confidence = 100 ∧
    qaMeanCx.stations.sadao.confidence = 100 ∧
    qaMeanCx.stations.kallayanamit.confidence = 0 ∧
    qaMeanCx.overall_confidence = 67 ∧
    (qaMeanCx.overall_confidence : ℚ) ≠ (100 + 100 + 0 : ℚ) / 3 := by
  rw [qaMeanCx_eq]
  norm_num

/-- C6 (amended): the aggregate confidence equals the per-station mean
rounded to the nearest integer, and the status buckets are as claimed:
`≥ 80 → "ok"`, `≥ 50 (and < 80) → "degraded"`, `< 50 → "critical"`, the
boundaries 80 and 50 belonging to the higher bucket. -/
theorem C6_aggregate_status :
    ∀ (d : AllData) (bi : BankInfoMap) (roc : RocMap) (age : Option ℚ),
      (compute_qa_flags d bi roc age).overall_confidence =
        round ((((compute_qa_flags d bi roc age).stations.hatYai.confidence +
          (compute_qa_flags d bi roc age).stations.sadao.confidence +
          (compute_qa_flags d bi roc age).stations.kallayanamit.confidence :
            ℤ) : ℚ) / 3) ∧
      (80 ≤ (compute_qa_flags d bi roc age).overall_confidence →
        (compute_qa_flags d bi roc age).overall_status = "ok") ∧
      (50 ≤ (compute_qa_flags d bi roc age).overall_confidence ∧
          (compute_qa_flags d bi roc age).overall_confidence < 80 →
        (compute_qa_flags d bi roc age).overall_status = "degraded") ∧
      ((compute_qa_flags d bi roc age).overall_confidence < 50 →
        (compute_qa_flags d bi roc age).overall_status = "critical") := by
  intro d bi roc age
  refine ⟨rfl, ?_, ?_, ?_⟩ <;>
    · simp only [compute_qa_flags]
      split_ifs <;> simp_all <;> omega

/-- C6 witness: the two-healthy-one-offline run has rounded-mean confidence
67, which lands in the degraded bucket. -/
theorem C6_aggregate_status_witness :
    50 ≤ qaMeanCx.overall_confidence ∧ qaMeanCx.overall_confidence < 80 ∧
    qaMeanCx.overall_status = "degraded" :=
  ⟨by rw [qaMeanCx_eq]; norm_num,
   by rw [qaMeanCx_eq]; norm_num,
   (C6_aggregate_status ⟨some 5, some 5, none⟩
     ⟨⟨none, none⟩, ⟨none, none⟩, ⟨none, none⟩⟩ ⟨0, 0, 0⟩ none).2.2.1
     ⟨by rw [show compute_qa_flags ⟨some 5, some 5, none⟩
         ⟨⟨none, none⟩, ⟨none, none⟩, ⟨none, none⟩⟩ ⟨0, 0, 0⟩ none = qaMeanCx
         from rfl, qaMeanCx_eq]; norm_num,
      by rw [show compute_qa_flags ⟨some 5, some 5, none⟩
         ⟨⟨none, none⟩, ⟨none, none⟩, ⟨none, none⟩⟩ ⟨0, 0, 0⟩ none = qaMeanCx
         from rfl, qaMeanCx_eq]; norm_num⟩⟩

/-! ### Sigmoid lemmas -/

/-- The unclamped logistic value is positive. -/
lemma sigmoid_core_pos (x : ℝ) :
    0 < 100 / (1 + Real.exp (-(4/5) * ((x - 5) / 10 - 19/2 / 10))) :=
  div_pos (by norm_num) (by positivity)

/-- The unclamped logistic value is below 100. -/
lemma sigmoid_core_lt_100 (x : ℝ) :
    100 / (1 + Real.exp (-(4/5) * ((x - 5) / 10 - 19/2 / 10))) < 100 := by
  rw [div_lt_iff₀ (by positivity)]
  nlinarith [Real.exp_pos (-(4/5 : ℝ) * ((x - 5) / 10 - 19/2 / 10))]

/-- Since the logistic value already lies in (0, 100), the final
`max(0, min(100, risk))` clamp is the identity. -/
lemma sigmoid_risk_cfg_eq (x : ℝ) :
    sigmoid_risk_cfg x =
      100 / (1 + Real.exp (-(4/5) * ((x - 5) / 10 - 19/2 / 10))) := by
  simp only [sigmoid_risk_cfg, sigmoid_risk, sigmoid_k, sigmoid_x0]
  rw [min_eq_right (sigmoid_core_lt_100 x).le,
    max_eq_right (sigmoid_core_pos x).le]

/-- The configured sigmoid risk is strictly increasing in the level. -/
lemma sigmoid_risk_cfg_strictMono {a b : ℝ} (h : a < b) :
    sigmoid_risk_cfg a < sigmoid_risk_cfg b := by
  rw [sigmoid_risk_cfg_eq, sigmoid_risk_cfg_eq]
  have harg : -(4/5 : ℝ) * ((b - 5) / 10 - 19/2 / 10) <
      -(4/5) * ((a - 5) / 10 - 19/2 / 10) := by nlinarith
  have hexp := Real.exp_lt_exp.mpr harg
  exact div_lt_div_of_pos_left (by norm_num) (by positivity) (by linarith)

/-- C2: the sigmoid water-level risk is monotone increasing in the level and
bounded in [0, 100] for every real input. -/
theorem C2_sigmoid_monotone_bounded :
    (∀ a b : ℝ, a < b → sigmoid_risk_cfg a ≤ sigmoid_risk_cfg b) ∧
    (∀ level : ℝ,
      0 ≤ sigmoid_risk_cfg level ∧ sigmoid_risk_cfg level ≤ 100) := by
  refine ⟨fun a b h => (sigmoid_risk_cfg_strictMono h).le, fun x => ⟨?_, ?_⟩⟩
  · simp only [sigmoid_risk_cfg, sigmoid_risk]
    exact le_max_left _ _
  · simp only [sigmoid_risk_cfg, sigmoid_risk]
    exact max_le (by norm_num) (min_le_left _ _)

/-- C2 witness: instantiated at the extreme levels −100 and 100. -/
theorem C2_sigmoid_monotone_bounded_witness :
    sigmoid_risk_cfg (-100) ≤ sigmoid_risk_cfg 100 ∧
    0 ≤ sigmoid_risk_cfg (-100) ∧ sigmoid_risk_cfg (-100) ≤ 100 ∧
    0 ≤ sigmoid_risk_cfg 100 ∧ sigmoid_risk_cfg 100 ≤ 100 :=
  ⟨C2_sigmoid_monotone_bounded.1 (-100) 100 (by norm_num),
   (C2_sigmoid_monotone_bounded.2 (-100)).1,
   (C2_sigmoid_monotone_bounded.2 (-100)).2,
   (C2_sigmoid_monotone_bounded.2 100).1,
   (C2_sigmoid_monotone_bounded.2 100).2⟩

/-- C8 counterexample: at the configured inflection level x0 = 9.5 the
returned risk is strictly below 50, because the code compares the
normalized level `(level − 5)/10` against `x0/10`; the exponent at 9.5 is
0.4, not 0, so `sigmoid_risk(9.5) = 100/(1+e^0.4) ≈ 40.1 ≠ 50`. -/
theorem C8_counterexample :
    sigmoid_risk_cfg (19/2) < 50 ∧ sigmoid_risk_cfg (19/2) ≠ 50 := by
  have h : sigmoid_risk_cfg (19/2) < 50 := by
    rw [sigmoid_risk_cfg_eq,
      show -(4/5 : ℝ) * (((19:ℝ)/2 - 5) / 10 - 19/2 / 10) = 2/5 by norm_num,
      div_lt_iff₀ (by positivity)]
    have h1 : (1 : ℝ) < Real.exp (2/5) :=
      Real.one_lt_exp_iff.mpr (by norm_num)
    nlinarith
  exact ⟨h, ne_of_lt h⟩

/-- C8 (amended): the logistic curve's midpoint (risk exactly 50) sits at
level `sigmoid_x0 + 5 = 14.5 m`, not at `sigmoid_x0 = 9.5 m` — the
normalization `(level − 5)/10` vs `x0/10` shifts the center by 5 m.  Risk is
below 50 for levels under 14.5 and above 50 for levels over it. -/
theorem C8_sigmoid_midpoint :
    sigmoid_risk_cfg (sigmoid_x0 + 5) = 50 ∧
    (∀ level : ℝ, level < sigmoid_x0 + 5 → sigmoid_risk_cfg level < 50) ∧
    (∀ level : ℝ, sigmoid_x0 + 5 < level → 50 < sigmoid_risk_cfg level) := by
  have hmid : sigmoid_risk_cfg (sigmoid_x0 + 5) = 50 := by
    rw [sigmoid_risk_cfg_eq, sigmoid_x0,
      show -(4/5 : ℝ) * (((19:ℝ)/2 + 5 - 5) / 10 - 19/2 / 10) = 0 by
        norm_num,
      Real.exp_zero]
    norm_num
  refine ⟨hmid, fun l h => ?_, fun l h => ?_⟩
  · have := sigmoid_risk_cfg_strictMono h
    rwa [hmid] at this
  · have := sigmoid_risk_cfg_strictMono h
    rwa [hmid] at this

/-- C8 witness: the amended theorem instantiated at 9.5 (below the true
midpoint 14.5) and at 20 (above it). -/
theorem C8_sigmoid_midpoint_witness :
    sigmoid_risk_cfg (19/2) < 50 ∧ 50 < sigmoid_risk_cfg 20 :=
  ⟨C8_sigmoid_midpoint.2.1 (19/2) (by rw [sigmoid_x0]; norm_num),
   C8_sigmoid_midpoint.2.2 20 (by rw [sigmoid_x0]; norm_num)⟩

/-- C1: with no primary level the engine returns confidence 65, the
"Virtual (Rain Only)" source label and a final risk equal to the rainfall
risk alone; with a level it returns confidence 90 and the hybrid source
label naming the sensor. -/
theorem C1_failover_confidence :
    ∀ (rain_sum_3d : ℝ) (station_code : String),
      (analyze_flood_risk none station_code rain_sum_3d).confidence_score
        = 65 ∧
      (analyze_flood_risk none station_code rain_sum_3d).data_source
        = "Virtual (Rain Only)" ∧
      (analyze_flood_risk none station_code rain_sum_3d).primary_risk
        = round1 (min (rain_sum_3d / catastrophic_24h * 100) 100) ∧
      ∀ level : ℝ,
        (analyze_flood_risk (some level) station_code
          rain_sum_3d).confidence_score = 90 ∧
        (analyze_flood_risk (some level) station_code
          rain_sum_3d).data_source = "Hybrid (" ++ station_code ++ ")" := by
  intro rs sc
  exact ⟨rfl, rfl, rfl, fun lv => ⟨rfl, rfl⟩⟩

/-! ### ETA lemmas -/

/-- Mathlib's `round` is monotone. -/
lemma round_mono_real {a b : ℝ} (h : a ≤ b) : round a ≤ round b := by
  rw [round_eq, round_eq]
  exact Int.floor_le_floor (by linarith)

lemma round2_le_round2 {a b : ℝ} (h : a ≤ b) : round2 a ≤ round2 b := by
  unfold round2
  have h2 : round ((100 : ℝ) * a) ≤ round ((100 : ℝ) * b) :=
    round_mono_real (by linarith)
  have h3 : ((round ((100 : ℝ) * a) : ℤ) : ℝ) ≤
      ((round ((100 : ℝ) * b) : ℤ) : ℝ) := by exact_mod_cast h2
  linarith

/-- 0.1 m/s is exactly representable at two decimals. -/
lemma round2_tenth : round2 (1/10) = 1/10 := by
  unfold round2
  rw [show (100 : ℝ) * (1/10) = ((10 : ℤ) : ℝ) by norm_num, round_intCast]
  norm_num

/-- 2.5 m/s is exactly representable at two decimals. -/
lemma round2_max_velocity : round2 (5/2) = 5/2 := by
  unfold round2
  rw [show (100 : ℝ) * (5/2) = ((250 : ℤ) : ℝ) by norm_num, round_intCast]
  norm_num

/-- The clamp `max(0.1, min(velocity, max_velocity))` bounds the velocity
fed to `calculate_eta_hours`. -/
lemma etaInputVelocity_bounds (lv roc : ℝ) :
    1/10 ≤ etaInputVelocity lv roc ∧ etaInputVelocity lv roc ≤ 5/2 := by
  unfold etaInputVelocity max_velocity
  exact ⟨le_max_left _ _, max_le (by norm_num) (min_le_right _ _)⟩

/-- C3: whenever the upstream (Sadao) level is present, the reported
`velocity_ms` lies in [0.1, max_velocity]; and the estimator returns the
"no data" result exactly when the Sadao level is absent. -/
theorem C3_eta_velocity_bounds_no_data :
    (∀ (lv roc : ℝ),
      1/10 ≤ (estimate_time_to_impact_hydraulic (some lv) roc).velocity_ms ∧
      (estimate_time_to_impact_hydraulic (some lv) roc).velocity_ms
        ≤ max_velocity) ∧
    (∀ (sadao_level : Option ℝ) (roc : ℝ),
      estimate_time_to_impact_hydraulic sadao_level roc = etaNoData ↔
        sadao_level = none) := by
  constructor
  · intro lv roc
    have hb := etaInputVelocity_bounds lv roc
    have hvm : (estimate_time_to_impact_hydraulic (some lv) roc).velocity_ms
        = round2 (etaInputVelocity lv roc) := rfl
    rw [hvm, max_velocity]
    constructor
    · rw [← round2_tenth]; exact round2_le_round2 hb.1
    · rw [← round2_max_velocity]; exact round2_le_round2 hb.2
  · intro sl roc
    cases sl with
    | none => simp [estimate_time_to_impact_hydraulic]
    | some lv =>
      constructor
      · intro h
        have hc : (estimate_time_to_impact_hydraulic
            (some lv) roc).confidence = "Low (No upstream data)" := by
          rw [h]; rfl
        simp only [estimate_time_to_impact_hydraulic] at hc
        split_ifs at hc <;> exact absurd hc (by decide)
      · intro h
        exact absurd h (by simp)

/-- C9: on the level-present path the velocity handed to
`calculate_eta_hours` has been clamped to at least 0.1 m/s, so it is nonzero
and the division `distance / velocity` is never a division by zero; the
reported `eta_hours` is indeed computed from that clamped velocity. -/
theorem C9_eta_division_safe :
    ∀ (lv roc : ℝ),
      1/10 ≤ etaInputVelocity lv roc ∧
      etaInputVelocity lv roc ≠ 0 ∧
      (estimate_time_to_impact_hydraulic (some lv) roc).eta_hours =
        round1 (calculate_eta_hours
          (calculate_actual_distance straight_distance_km sinuosity_factor)
          (etaInputVelocity lv roc) runoff_delay_hours) := by
  intro lv roc
  have h1 := (etaInputVelocity_bounds lv roc).1
  refine ⟨h1, fun h0 => ?_, rfl⟩
  rw [h0] at h1
  norm_num at h1
